import Mathlib

/-!
Shallow embedding of the Zen_x single-slot dead-drop relay (`src/server.py`).

The server keeps one in-memory payload slot (`app.state.payload`,
`app.state.updated_at`), guarded by a lock that makes each handler's state
transition atomic; every handler is therefore modelled as a pure function
from the pre-state (plus its inputs and an abstract timestamp) to a
post-state and a wire response.  The best-effort mirror file is modelled as
an `Option JsonVal` (`none` = file absent or unparsable); best-effort disk
operations take a `diskOk : Bool` flag, since the code swallows every I/O
failure.  A raised `HTTPException status detail` is rendered by the web
framework as the JSON body with the single field `detail`, which we model
as `Body.codeBody "detail" c`; a plain dict return is the corresponding
`Body.codeBody "c" c` or `Body.pairBody` response.
-/

namespace ZenX

/-! ### Numeric codes and limits (`src/server.py` lines 26-45) -/

def C_OK : Nat := 100
def C_NEED : Nat := 200
def C_DENY : Nat := 301
def C_BAD : Nat := 404
def C_BUSY : Nat := 409
def C_NR : Nat := 503
def C_ERR : Nat := 520

def MAX_NONCE_LEN : Nat := 4096
def MAX_DATA_LEN : Nat := 16384

/-- The fixed closed numeric-status vocabulary of the wire protocol. -/
def STATUS_CODES : List Nat := [100, 200, 301, 404, 409, 503, 520]

/-- `GATE_PASS = os.getenv("GATE_PASS", "")`, replaced by `"CHANGE_ME"`
when falsy (lines 17-20).  `env` is the raw environment variable
(`none` = unset). -/
def GATE_PASS (env : Option String) : String :=
  if env.getD "" = "" then "CHANGE_ME" else env.getD ""

/-! ### Data model -/

/-- The request/slot payload (`class Payload(BaseModel)`, lines 50-52). -/
structure Payload where
  nonce : String
  data : String
deriving DecidableEq

/-- In-memory state: `app.state.payload` and `app.state.updated_at`
(lines 55-56).  Timestamps are abstract `Nat`s. -/
structure ServerState where
  payload : Option Payload
  updated_at : Option Nat
deriving DecidableEq

/-- Parsed JSON values, for the mirror file's content. -/
inductive JsonVal where
  | jnull
  | jbool (b : Bool)
  | jnum (n : Int)
  | jstr (s : String)
  | jarr (xs : List JsonVal)
  | jobj (fields : List (String × JsonVal))

/-- Whole system: in-memory state plus the mirror file `STATE_FILE`
(`none` = absent or unparsable content). -/
structure Sys where
  mem : ServerState
  mirror : Option JsonVal

/-- A response body: either a JSON object with a single numeric field
(`{"c": code}` for plain returns, `{"detail": code}` for a rendered
`HTTPException`), or the stored pair `{"nonce": ..., "data": ...}`. -/
inductive Body where
  | codeBody (key : String) (c : Nat)
  | pairBody (nonce data : String)
deriving DecidableEq

/-- A wire response: transport status line, JSON body, extra headers. -/
structure Resp where
  status : Nat
  body : Body
  headers : List (String × String)
deriving DecidableEq

/-! ### Helpers (`src/server.py` lines 61-105) -/

/-- `hmac.compare_digest` on strings: constant-time equality. -/
def compare_digest (a b : String) : Bool := a == b

/-- `_auth` (lines 61-64): returns `true` when the check raises `DENIED`,
i.e. when the header is absent, empty, or differs from the gate pass. -/
def _auth (x_pass : Option String) (gate : String) : Bool :=
  match x_pass with
  | none => true
  | some s => (s == "") || !(compare_digest s gate)

/-- `_validate_payload` (lines 66-70): `some (httpStatus, detail)` when the
check raises, `none` when the payload is accepted. -/
def validate_payload (p : Payload) : Option (Nat × Nat) :=
  if p.nonce = "" ∨ p.data = "" then some (400, C_BAD)
  else if p.nonce.length > MAX_NONCE_LEN ∨ p.data.length > MAX_DATA_LEN then some (413, C_BAD)
  else none

/-- Lookup in a parsed JSON object.  `json.loads` builds a `dict`, which
keeps the last occurrence of a duplicated key. -/
def jsonLookup : List (String × JsonVal) → String → Option JsonVal
  | [], _ => none
  | (k, v) :: rest, key =>
    match jsonLookup rest key with
    | some w => some w
    | none => if k = key then some v else none

def isObj : JsonVal → Bool
  | .jobj _ => true
  | _ => false

def isStr : JsonVal → Bool
  | .jstr _ => true
  | _ => false

/-- `_best_effort_load` (lines 81-98): `none` for a missing file,
unparsable content, non-object content, a missing or non-string field, or
an oversized field; otherwise the stored pair.  (Note: emptiness of the
fields is *not* checked here.) -/
def best_effort_load : Option JsonVal → Option Payload
  | none => none
  | some v =>
    match v with
    | .jobj fields =>
      match jsonLookup fields "nonce", jsonLookup fields "data" with
      | some (.jstr n), some (.jstr d) =>
        if n.length > MAX_NONCE_LEN ∨ d.length > MAX_DATA_LEN then none
        else some ⟨n, d⟩
      | _, _ => none
    | _ => none

/-- `json.dump` of the stored `obj = {"nonce": ..., "data": ...}`
(lines 72-79, 126, 135), as re-parsed by a later `_best_effort_load`. -/
def encodePayload (p : Payload) : JsonVal :=
  .jobj [("nonce", .jstr p.nonce), ("data", .jstr p.data)]

/-! ### Handlers (`src/server.py` lines 110-163) -/

/-- `_startup_restore` (lines 110-116): the in-memory state of a fresh
process after consulting the mirror file (`t` is `time.time()`). -/
def startup_restore (t : Nat) (file : Option JsonVal) : ServerState :=
  match best_effort_load file with
  | some p => ⟨some p, some t⟩
  | none => ⟨none, none⟩

/-- A fresh process booted over mirror file `file` at time `t`. -/
def initSys (t : Nat) (file : Option JsonVal) : Sys :=
  ⟨startup_restore t file, file⟩

/-- `update_tunnel` (`POST /update`, lines 121-140).  `diskOk` says whether
the best-effort `_atomic_write_json` succeeds; its failure is swallowed. -/
def update_tunnel (env : Option String) (t : Nat) (diskOk : Bool)
    (s : Sys) (x_pass : Option String) (p : Payload) : Sys × Resp :=
  if _auth x_pass (GATE_PASS env) then
    (s, ⟨403, Body.codeBody "detail" C_DENY, []⟩)
  else
    match validate_payload p with
    | some sc => (s, ⟨sc.1, Body.codeBody "detail" sc.2, []⟩)
    | none =>
      (⟨⟨some p, some t⟩, if diskOk then some (encodePayload p) else s.mirror⟩,
       ⟨200, Body.codeBody "c" C_OK, []⟩)

/-- `end_tunnel` (`POST /end`, lines 145-152).  `diskOk` says whether the
best-effort `_best_effort_clear_file` succeeds. -/
def end_tunnel (env : Option String) (diskOk : Bool)
    (s : Sys) (x_pass : Option String) : Sys × Resp :=
  if _auth x_pass (GATE_PASS env) then
    (s, ⟨403, Body.codeBody "detail" C_DENY, []⟩)
  else
    (⟨⟨none, none⟩, if diskOk then none else s.mirror⟩,
     ⟨200, Body.codeBody "c" C_OK, []⟩)

/-- `get_payload` (`GET /payload`, lines 157-163).  Takes no credential.
A `dict` holding the two keys is always truthy, so `not app.state.payload`
is exactly "the slot is absent". -/
def get_payload (s : Sys) : Resp :=
  match s.mem.payload with
  | none => ⟨503, Body.codeBody "detail" C_NR, []⟩
  | some p => ⟨200, Body.pairBody p.nonce p.data, [("Cache-Control", "no-store")]⟩

/-! ### Operation sequences -/

/-- One external event hitting the relay. -/
inductive Op where
  | deposit (x_pass : Option String) (p : Payload) (t : Nat) (diskOk : Bool)
  | clear (x_pass : Option String) (diskOk : Bool)
  | fetch
  | restart (t : Nat)

def runOp (env : Option String) (s : Sys) : Op → Sys
  | .deposit x p t dk => (update_tunnel env t dk s x p).1
  | .clear x dk => (end_tunnel env dk s x).1
  | .fetch => s
  | .restart t => ⟨startup_restore t s.mirror, s.mirror⟩

def runOps (env : Option String) (s : Sys) : List Op → Sys
  | [] => s
  | o :: rest => runOps env (runOp env s o) rest

/-! ### Invariant predicates -/

def payloadBounded (p : Payload) : Bool :=
  (p.nonce.length ≤ MAX_NONCE_LEN) && (p.data.length ≤ MAX_DATA_LEN)

def payloadNonEmpty (p : Payload) : Bool :=
  !(p.nonce == "") && !(p.data == "")

/-- The slot is absent or holds a pair within the size bounds. -/
def slotBounded (s : ServerState) : Bool :=
  match s.payload with
  | none => true
  | some p => payloadBounded p

/-- The slot is absent or holds a non-empty pair within the size bounds. -/
def slotStrong (s : ServerState) : Bool :=
  match s.payload with
  | none => true
  | some p => payloadBounded p && payloadNonEmpty p

/-- The mirror file, if it loads at all, loads to a non-empty pair. -/
def mirrorStrong (f : Option JsonVal) : Bool :=
  match best_effort_load f with
  | none => true
  | some q => payloadNonEmpty q

/-- Coupled invariant: strong slot shape plus a strong mirror. -/
def sysStrong (s : Sys) : Bool :=
  slotStrong s.mem && mirrorStrong s.mirror

/-! ### Helper lemmas -/

/-- The effective gate pass is never the empty string: an unset or empty
environment variable falls back to `"CHANGE_ME"`. -/
theorem gate_pass_ne_empty (e : Option String) : GATE_PASS e ≠ "" := by
  cases e with
  | none => intro h; exact absurd h (by decide)
  | some s =>
    by_cases h : s = ""
    · intro h2
      unfold GATE_PASS at h2
      rw [Option.getD_some, if_pos h] at h2
      exact absurd h2 (by decide)
    · intro h2
      unfold GATE_PASS at h2
      rw [Option.getD_some, if_neg h] at h2
      exact h h2

/-- Any credential other than `some gate` is denied by `_auth`. -/
theorem auth_denies_of_ne (cred : Option String) (gate : String)
    (h : cred ≠ some gate) : _auth cred gate = true := by
  cases cred with
  | none => rfl
  | some s =>
    have hs : s ≠ gate := fun hh => h (by rw [hh])
    simp [_auth, compare_digest, hs]

/-- `_auth` passes exactly on the genuine, non-empty gate pass. -/
theorem auth_passes_iff (cred : Option String) (gate : String) :
    _auth cred gate = false ↔ cred = some gate ∧ gate ≠ "" := by
  cases cred with
  | none => simp [_auth]
  | some s =>
    by_cases hg : s = gate
    · subst hg
      by_cases he : s = ""
      · subst he
        simp [_auth, compare_digest]
      · simp [_auth, compare_digest, he]
    · simp [_auth, compare_digest, hg]

/-- Characterization of payload validation success. -/
theorem validate_none_iff (p : Payload) :
    validate_payload p = none ↔
      p.nonce ≠ "" ∧ p.data ≠ "" ∧
      p.nonce.length ≤ MAX_NONCE_LEN ∧ p.data.length ≤ MAX_DATA_LEN := by
  unfold validate_payload
  by_cases h1 : p.nonce = "" ∨ p.data = ""
  · rw [if_pos h1]
    constructor
    · intro h; exact (Option.some_ne_none _ h).elim
    · rintro ⟨ha, hb, -, -⟩
      rcases h1 with h | h
      · exact (ha h).elim
      · exact (hb h).elim
  · rw [if_neg h1]
    push_neg at h1
    by_cases h2 : p.nonce.length > MAX_NONCE_LEN ∨ p.data.length > MAX_DATA_LEN
    · rw [if_pos h2]
      constructor
      · intro h; exact (Option.some_ne_none _ h).elim
      · rintro ⟨-, -, ha, hb⟩
        rcases h2 with h | h <;> omega
    · rw [if_neg h2]
      push_neg at h2
      exact ⟨fun _ => ⟨h1.1, h1.2, h2.1, h2.2⟩, fun _ => rfl⟩

/-- Whatever `_best_effort_load` returns is within the size bounds. -/
theorem load_bounded (file : Option JsonVal) (q : Payload)
    (h : best_effort_load file = some q) : payloadBounded q = true := by
  cases file with
  | none => exact (Option.some_ne_none _ h.symm).elim
  | some v =>
    cases v with
    | jobj fields =>
      simp only [best_effort_load] at h
      split at h
      · split at h
        · exact (Option.some_ne_none _ h.symm).elim
        · rename_i n d hlen
          injection h with h
          subst h
          simp only [payloadBounded, Bool.and_eq_true, decide_eq_true_eq]
          push_neg at hlen
          exact ⟨hlen.1, hlen.2⟩
      · exact (Option.some_ne_none _ h.symm).elim
    | jnull => exact (Option.some_ne_none _ h.symm).elim
    | jbool b => exact (Option.some_ne_none _ h.symm).elim
    | jnum m => exact (Option.some_ne_none _ h.symm).elim
    | jstr s => exact (Option.some_ne_none _ h.symm).elim
    | jarr xs => exact (Option.some_ne_none _ h.symm).elim

/-- A mirror written by `_atomic_write_json` of a bounded pair loads back
to exactly that pair. -/
theorem load_encode (p : Payload) (h : payloadBounded p = true) :
    best_effort_load (some (encodePayload p)) = some p := by
  simp only [payloadBounded, Bool.and_eq_true, decide_eq_true_eq] at h
  have step : best_effort_load (some (encodePayload p)) =
      if p.nonce.length > MAX_NONCE_LEN ∨ p.data.length > MAX_DATA_LEN then none
      else some ⟨p.nonce, p.data⟩ := rfl
  rw [step, if_neg (by omega)]

/-- A payload accepted by validation is bounded and non-empty. -/
theorem validate_none_strong (p : Payload) (h : validate_payload p = none) :
    payloadBounded p = true ∧ payloadNonEmpty p = true := by
  rw [validate_none_iff] at h
  obtain ⟨h1, h2, h3, h4⟩ := h
  constructor
  · simp only [payloadBounded, Bool.and_eq_true, decide_eq_true_eq]
    exact ⟨h3, h4⟩
  · simp only [payloadNonEmpty, Bool.and_eq_true, Bool.not_eq_true', beq_eq_false_iff_ne,
      ne_eq]
    exact ⟨h1, h2⟩

/-- Any validation failure carries detail code `C_BAD`. -/
theorem validate_some_detail (p : Payload) (sc : Nat × Nat)
    (h : validate_payload p = some sc) : sc.2 = C_BAD := by
  unfold validate_payload at h
  split at h
  · injection h with h
    rw [← h]
  · split at h
    · injection h with h
      rw [← h]
    · exact Option.noConfusion h

/-- Unfolding of `_best_effort_load` on an object value. -/
theorem load_jobj (fields : List (String × JsonVal)) :
    best_effort_load (some (JsonVal.jobj fields)) =
      match jsonLookup fields "nonce", jsonLookup fields "data" with
      | some (JsonVal.jstr n), some (JsonVal.jstr d) =>
        if n.length > MAX_NONCE_LEN ∨ d.length > MAX_DATA_LEN then none
        else some ⟨n, d⟩
      | _, _ => none := rfl

/-- Every single operation preserves the bounded-slot shape. -/
theorem runOp_bounded (env : Option String) (s : Sys) (o : Op)
    (h : slotBounded s.mem = true) : slotBounded (runOp env s o).mem = true := by
  cases o with
  | deposit x p t dk =>
    simp only [runOp]
    unfold update_tunnel
    cases ha : _auth x (GATE_PASS env) with
    | true => exact h
    | false =>
      cases hv : validate_payload p with
      | some sc => exact h
      | none => exact (validate_none_strong p hv).1
  | clear x dk =>
    simp only [runOp]
    unfold end_tunnel
    cases ha : _auth x (GATE_PASS env) with
    | true => exact h
    | false => rfl
  | fetch => exact h
  | restart t =>
    show slotBounded (startup_restore t s.mirror) = true
    cases hl : best_effort_load s.mirror with
    | none => unfold startup_restore; rw [hl]; rfl
    | some q =>
      unfold startup_restore; rw [hl]
      exact load_bounded s.mirror q hl

/-- Every single operation preserves the coupled strong invariant. -/
theorem runOp_strong (env : Option String) (s : Sys) (o : Op)
    (h : sysStrong s = true) : sysStrong (runOp env s o) = true := by
  rw [sysStrong, Bool.and_eq_true] at h
  obtain ⟨hm, hf⟩ := h
  rw [sysStrong, Bool.and_eq_true]
  cases o with
  | deposit x p t dk =>
    simp only [runOp]
    unfold update_tunnel
    cases ha : _auth x (GATE_PASS env) with
    | true => exact ⟨hm, hf⟩
    | false =>
      cases hv : validate_payload p with
      | some sc => exact ⟨hm, hf⟩
      | none =>
        obtain ⟨hb, hne⟩ := validate_none_strong p hv
        constructor
        · show (payloadBounded p && payloadNonEmpty p) = true
          rw [Bool.and_eq_true]
          exact ⟨hb, hne⟩
        · show mirrorStrong (if dk = true then some (encodePayload p) else s.mirror) = true
          cases dk with
          | true =>
            show mirrorStrong (some (encodePayload p)) = true
            unfold mirrorStrong
            rw [load_encode p hb]
            exact hne
          | false => exact hf
  | clear x dk =>
    simp only [runOp]
    unfold end_tunnel
    cases ha : _auth x (GATE_PASS env) with
    | true => exact ⟨hm, hf⟩
    | false =>
      constructor
      · rfl
      · show mirrorStrong (if dk = true then none else s.mirror) = true
        cases dk with
        | true => rfl
        | false => exact hf
  | fetch => exact ⟨hm, hf⟩
  | restart t =>
    constructor
    · show slotStrong (startup_restore t s.mirror) = true
      cases hl : best_effort_load s.mirror with
      | none => unfold startup_restore; rw [hl]; rfl
      | some q =>
        unfold startup_restore; rw [hl]
        show (payloadBounded q && payloadNonEmpty q) = true
        rw [Bool.and_eq_true]
        refine ⟨load_bounded s.mirror q hl, ?_⟩
        unfold mirrorStrong at hf
        rw [hl] at hf
        exact hf
    · exact hf

theorem runOps_bounded (env : Option String) (ops : List Op) (s : Sys)
    (h : slotBounded s.mem = true) : slotBounded (runOps env s ops).mem = true := by
  induction ops generalizing s with
  | nil => exact h
  | cons o rest ih => exact ih _ (runOp_bounded env s o h)

theorem runOps_strong (env : Option String) (ops : List Op) (s : Sys)
    (h : sysStrong s = true) : sysStrong (runOps env s ops) = true := by
  induction ops generalizing s with
  | nil => exact h
  | cons o rest ih => exact ih _ (runOp_strong env s o h)

theorem initSys_bounded (t : Nat) (file : Option JsonVal) :
    slotBounded (initSys t file).mem = true := by
  show slotBounded (startup_restore t file) = true
  cases hl : best_effort_load file with
  | none => unfold startup_restore; rw [hl]; rfl
  | some q =>
    unfold startup_restore; rw [hl]
    exact load_bounded file q hl

theorem initSys_strong (t : Nat) (file : Option JsonVal)
    (h : mirrorStrong file = true) : sysStrong (initSys t file) = true := by
  rw [sysStrong, Bool.and_eq_true]
  refine ⟨?_, h⟩
  show slotStrong (startup_restore t file) = true
  cases hl : best_effort_load file with
  | none => unfold startup_restore; rw [hl]; rfl
  | some q =>
    unfold startup_restore; rw [hl]
    show (payloadBounded q && payloadNonEmpty q) = true
    rw [Bool.and_eq_true]
    refine ⟨load_bounded file q hl, ?_⟩
    unfold mirrorStrong at h
    rw [hl] at h
    exact h

/-! ### Claims -/

/-- C1: Deposit and Clear answer DENIED (code 301) to every absent, empty,
or mismatching credential and never answer OK there, while a credential
exactly equal to the configured secret passes the authentication check. -/
theorem auth_gate_correct (env cred : Option String) (t : Nat) (d : Bool)
    (s : Sys) (p : Payload) :
    ((cred = none ∨ cred = some "" ∨ cred ≠ some (GATE_PASS env)) →
       _auth cred (GATE_PASS env) = true ∧
       (update_tunnel env t d s cred p).2 = ⟨403, Body.codeBody "detail" C_DENY, []⟩ ∧
       (end_tunnel env d s cred).2 = ⟨403, Body.codeBody "detail" C_DENY, []⟩ ∧
       (update_tunnel env t d s cred p).2.body ≠ Body.codeBody "c" C_OK ∧
       (end_tunnel env d s cred).2.body ≠ Body.codeBody "c" C_OK ∧
       C_DENY = 301) ∧
    (cred = some (GATE_PASS env) → _auth cred (GATE_PASS env) = false) := by
  constructor
  · intro hc
    have hne : cred ≠ some (GATE_PASS env) := by
      rcases hc with h | h | h
      · subst h; exact fun hh => Option.noConfusion hh
      · subst h
        intro hh
        injection hh with hh
        exact gate_pass_ne_empty env hh.symm
      · exact h
    have ha := auth_denies_of_ne cred (GATE_PASS env) hne
    have hu : (update_tunnel env t d s cred p).2 = ⟨403, Body.codeBody "detail" C_DENY, []⟩ := by
      unfold update_tunnel; rw [ha]; rfl
    have he : (end_tunnel env d s cred).2 = ⟨403, Body.codeBody "detail" C_DENY, []⟩ := by
      unfold end_tunnel; rw [ha]; rfl
    refine ⟨ha, hu, he, ?_, ?_, rfl⟩
    · rw [hu]; decide
    · rw [he]; decide
  · intro hc
    rw [auth_passes_iff]
    exact ⟨hc, gate_pass_ne_empty env⟩

theorem auth_gate_correct_witness :
    _auth none (GATE_PASS none) = true ∧
    (update_tunnel none 0 true ⟨⟨none, none⟩, none⟩ (some "wrong") ⟨"n", "d"⟩).2 =
      ⟨403, Body.codeBody "detail" C_DENY, []⟩ ∧
    _auth (some "CHANGE_ME") (GATE_PASS none) = false := by
  refine ⟨?_, ?_, ?_⟩
  · exact ((auth_gate_correct none none 0 true ⟨⟨none, none⟩, none⟩ ⟨"n", "d"⟩).1
      (Or.inl rfl)).1
  · exact ((auth_gate_correct none (some "wrong") 0 true ⟨⟨none, none⟩, none⟩ ⟨"n", "d"⟩).1
      (Or.inr (Or.inr (by decide)))).2.1
  · exact (auth_gate_correct none (some "CHANGE_ME") 0 true ⟨⟨none, none⟩, none⟩ ⟨"n", "d"⟩).2
      (by decide)

/-- C2: a Deposit that fails authentication or input validation, and a
Clear that fails authentication, leave the whole state (slot, timestamp
and mirror file) exactly as it was. -/
theorem no_mutation_on_failure (env : Option String) (t : Nat) (d : Bool)
    (s : Sys) (cred : Option String) (p : Payload) :
    (_auth cred (GATE_PASS env) = true →
       (update_tunnel env t d s cred p).1 = s ∧ (end_tunnel env d s cred).1 = s) ∧
    (validate_payload p ≠ none → (update_tunnel env t d s cred p).1 = s) := by
  constructor
  · intro ha
    constructor
    · unfold update_tunnel; rw [ha]; rfl
    · unfold end_tunnel; rw [ha]; rfl
  · intro hv
    cases ha : _auth cred (GATE_PASS env) with
    | true => unfold update_tunnel; rw [ha]; rfl
    | false =>
      unfold update_tunnel
      rw [ha]
      cases hvp : validate_payload p with
      | none => exact (hv hvp).elim
      | some sc => rfl

theorem no_mutation_on_failure_witness :
    (update_tunnel none 0 true ⟨⟨none, none⟩, none⟩ none ⟨"n", "d"⟩).1 =
      ⟨⟨none, none⟩, none⟩ ∧
    (update_tunnel none 1 true ⟨⟨none, none⟩, none⟩ (some "CHANGE_ME") ⟨"", ""⟩).1 =
      ⟨⟨none, none⟩, none⟩ := by
  constructor
  · exact ((no_mutation_on_failure none 0 true ⟨⟨none, none⟩, none⟩ none ⟨"n", "d"⟩).1
      (by decide)).1
  · exact (no_mutation_on_failure none 1 true ⟨⟨none, none⟩, none⟩ (some "CHANGE_ME")
      ⟨"", ""⟩).2 (by decide)

/-- C3: a successful Deposit followed by a Fetch returns exactly the
deposited pair, and a second successful Deposit fully replaces the first,
so a later Fetch returns only the second pair and never a mix. -/
theorem deposit_fetch_roundtrip (env : Option String) (t t' : Nat) (d d' : Bool)
    (s : Sys) (cred : Option String) (p p' : Payload)
    (ha : _auth cred (GATE_PASS env) = false)
    (hp : validate_payload p = none) (hp' : validate_payload p' = none) :
    (update_tunnel env t d s cred p).2 = ⟨200, Body.codeBody "c" C_OK, []⟩ ∧
    get_payload (update_tunnel env t d s cred p).1 =
      ⟨200, Body.pairBody p.nonce p.data, [("Cache-Control", "no-store")]⟩ ∧
    get_payload (update_tunnel env t' d' (update_tunnel env t d s cred p).1 cred p').1 =
      ⟨200, Body.pairBody p'.nonce p'.data, [("Cache-Control", "no-store")]⟩ := by
  unfold update_tunnel
  rw [ha, hp, hp']
  exact ⟨rfl, rfl, rfl⟩

theorem deposit_fetch_roundtrip_witness :
    get_payload (update_tunnel none 1 true ⟨⟨none, none⟩, none⟩ (some "CHANGE_ME")
        ⟨"a", "b"⟩).1 =
      ⟨200, Body.pairBody "a" "b", [("Cache-Control", "no-store")]⟩ ∧
    get_payload (update_tunnel none 2 true
        (update_tunnel none 1 true ⟨⟨none, none⟩, none⟩ (some "CHANGE_ME") ⟨"a", "b"⟩).1
        (some "CHANGE_ME") ⟨"x", "y"⟩).1 =
      ⟨200, Body.pairBody "x" "y", [("Cache-Control", "no-store")]⟩ := by
  constructor
  · exact (deposit_fetch_roundtrip none 1 2 true true ⟨⟨none, none⟩, none⟩
      (some "CHANGE_ME") ⟨"a", "b"⟩ ⟨"x", "y"⟩ (by decide) (by decide) (by decide)).2.1
  · exact (deposit_fetch_roundtrip none 1 2 true true ⟨⟨none, none⟩, none⟩
      (some "CHANGE_ME") ⟨"a", "b"⟩ ⟨"x", "y"⟩ (by decide) (by decide) (by decide)).2.2

/-- C4: under a valid credential, a Deposit whose nonce or data is empty
or oversized returns BAD_INPUT (code 404) and leaves the state untouched;
otherwise the pair is stored with the new timestamp and OK (code 100) is
returned. -/
theorem deposit_validation_bounds (env : Option String) (t : Nat) (d : Bool)
    (s : Sys) (cred : Option String) (p : Payload)
    (ha : _auth cred (GATE_PASS env) = false) :
    ((p.nonce = "" ∨ p.data = "" ∨ p.nonce.length > MAX_NONCE_LEN ∨
        p.data.length > MAX_DATA_LEN) →
       (update_tunnel env t d s cred p).2.body = Body.codeBody "detail" C_BAD ∧
       (update_tunnel env t d s cred p).1 = s ∧ C_BAD = 404) ∧
    (p.nonce ≠ "" → p.data ≠ "" → p.nonce.length ≤ MAX_NONCE_LEN →
        p.data.length ≤ MAX_DATA_LEN →
       (update_tunnel env t d s cred p).1.mem = ⟨some p, some t⟩ ∧
       (update_tunnel env t d s cred p).2 = ⟨200, Body.codeBody "c" C_OK, []⟩ ∧
       C_OK = 100) := by
  constructor
  · intro hbad
    by_cases h1 : p.nonce = "" ∨ p.data = ""
    · have hv : validate_payload p = some (400, C_BAD) := by
        unfold validate_payload; rw [if_pos h1]
      unfold update_tunnel
      rw [ha, hv]
      exact ⟨rfl, rfl, rfl⟩
    · have h2 : p.nonce.length > MAX_NONCE_LEN ∨ p.data.length > MAX_DATA_LEN := by
        rcases hbad with h | h | h | h
        · exact (h1 (Or.inl h)).elim
        · exact (h1 (Or.inr h)).elim
        · exact Or.inl h
        · exact Or.inr h
      have hv : validate_payload p = some (413, C_BAD) := by
        unfold validate_payload; rw [if_neg h1, if_pos h2]
      unfold update_tunnel
      rw [ha, hv]
      exact ⟨rfl, rfl, rfl⟩
  · intro ha1 ha2 ha3 ha4
    have hv : validate_payload p = none := (validate_none_iff p).mpr ⟨ha1, ha2, ha3, ha4⟩
    unfold update_tunnel
    rw [ha, hv]
    exact ⟨rfl, rfl, rfl⟩

theorem deposit_validation_bounds_witness :
    (update_tunnel none 3 true ⟨⟨none, none⟩, none⟩ (some "CHANGE_ME") ⟨"", "x"⟩).2.body =
      Body.codeBody "detail" C_BAD ∧
    (update_tunnel none 3 true ⟨⟨none, none⟩, none⟩ (some "CHANGE_ME") ⟨"n", "d"⟩).1.mem =
      ⟨some ⟨"n", "d"⟩, some 3⟩ := by
  constructor
  · exact ((deposit_validation_bounds none 3 true ⟨⟨none, none⟩, none⟩ (some "CHANGE_ME")
      ⟨"", "x"⟩ (by decide)).1 (Or.inl rfl)).1
  · exact ((deposit_validation_bounds none 3 true ⟨⟨none, none⟩, none⟩ (some "CHANGE_ME")
      ⟨"n", "d"⟩ (by decide)).2 (by decide) (by decide) (by decide) (by decide)).1

/-- C9: Clear with a valid credential returns OK (code 100) and leaves the
slot absent with the timestamp cleared, from any starting state — in
particular a second Clear (double clear) again returns OK with the slot
still absent, with no error. -/
theorem clear_idempotent (env : Option String) (d d' : Bool) (s : Sys)
    (cred : Option String) (h : _auth cred (GATE_PASS env) = false) :
    (end_tunnel env d s cred).2 = ⟨200, Body.codeBody "c" C_OK, []⟩ ∧
    (end_tunnel env d s cred).1.mem = ⟨none, none⟩ ∧
    (end_tunnel env d' (end_tunnel env d s cred).1 cred).2 =
      ⟨200, Body.codeBody "c" C_OK, []⟩ ∧
    (end_tunnel env d' (end_tunnel env d s cred).1 cred).1.mem = ⟨none, none⟩ ∧
    C_OK = 100 := by
  unfold end_tunnel
  rw [h]
  exact ⟨rfl, rfl, rfl, rfl, rfl⟩

theorem clear_idempotent_witness :
    (end_tunnel none true ⟨⟨none, none⟩, none⟩ (some "CHANGE_ME")).2 =
      ⟨200, Body.codeBody "c" C_OK, []⟩ :=
  (clear_idempotent none true true ⟨⟨none, none⟩, none⟩ (some "CHANGE_ME") (by decide)).1

/-- C10: with the GATE_PASS environment variable unset or empty the
effective credential is the fixed string "CHANGE_ME"; supplying
"CHANGE_ME" then passes authentication on Deposit and Clear, and the
effective credential is never the empty string. -/
theorem gate_pass_fallback :
    GATE_PASS none = "CHANGE_ME" ∧
    GATE_PASS (some "") = "CHANGE_ME" ∧
    (∀ e : Option String, (GATE_PASS e == "") = false) ∧
    (∀ (t : Nat) (d : Bool) (s : Sys),
       _auth (some "CHANGE_ME") (GATE_PASS none) = false ∧
       _auth (some "CHANGE_ME") (GATE_PASS (some "")) = false ∧
       (end_tunnel none d s (some "CHANGE_ME")).2 = ⟨200, Body.codeBody "c" C_OK, []⟩ ∧
       (update_tunnel none t d s (some "CHANGE_ME") ⟨"n", "d"⟩).2 =
         ⟨200, Body.codeBody "c" C_OK, []⟩) := by
  refine ⟨rfl, rfl, ?_, ?_⟩
  · intro e
    exact beq_eq_false_iff_ne.mpr (gate_pass_ne_empty e)
  · intro t d s
    have ha : _auth (some "CHANGE_ME") (GATE_PASS none) = false := by decide
    have hv : validate_payload ⟨"n", "d"⟩ = none := by decide
    refine ⟨ha, by decide, ?_, ?_⟩
    · unfold end_tunnel; rw [ha]; rfl
    · unfold update_tunnel; rw [ha, hv]; rfl

/-- C5 counterexample: the NOT_READY answer of Fetch on an absent slot
carries an empty header list — in particular no non-cacheable marking —
refuting the claim that it is marked non-cacheable. -/
theorem fetch_not_ready_no_cache_header :
    get_payload ⟨⟨none, none⟩, none⟩ = ⟨503, Body.codeBody "detail" C_NR, []⟩ ∧
    (get_payload ⟨⟨none, none⟩, none⟩).headers = [] :=
  ⟨rfl, rfl⟩

/-- C5 (amended): Fetch takes no credential and its outcome depends only
on slot presence; an absent slot yields NOT_READY (code 503) with *no*
cache-control marking (the response carries no headers), while a present
slot yields the stored pair verbatim marked non-cacheable. -/
theorem fetch_blind_characterization (s : Sys) :
    (s.mem.payload = none → get_payload s = ⟨503, Body.codeBody "detail" C_NR, []⟩) ∧
    (∀ p, s.mem.payload = some p →
       get_payload s = ⟨200, Body.pairBody p.nonce p.data, [("Cache-Control", "no-store")]⟩) ∧
    (∀ s' : Sys, s.mem.payload = s'.mem.payload → get_payload s = get_payload s') ∧
    C_NR = 503 := by
  refine ⟨?_, ?_, ?_, rfl⟩
  · intro h
    unfold get_payload
    rw [h]
  · intro p h
    unfold get_payload
    rw [h]
  · intro s' h
    unfold get_payload
    rw [h]

theorem fetch_blind_characterization_witness :
    get_payload ⟨⟨some ⟨"n", "d"⟩, some 1⟩, none⟩ =
      ⟨200, Body.pairBody "n" "d", [("Cache-Control", "no-store")]⟩ :=
  (fetch_blind_characterization ⟨⟨some ⟨"n", "d"⟩, some 1⟩, none⟩).2.1 ⟨"n", "d"⟩ rfl

/-- C6 counterexample: a startup restore from a well-typed mirror whose
"nonce" field is the empty string installs a *present* slot with an empty
nonce, so the claimed invariant "both fields non-empty" fails. -/
theorem restore_empty_field_breaks_invariant :
    (startup_restore 5 (some (JsonVal.jobj
        [("nonce", JsonVal.jstr ""), ("data", JsonVal.jstr "zzz")]))).payload =
      some ⟨"", "zzz"⟩ ∧
    slotStrong (startup_restore 5 (some (JsonVal.jobj
        [("nonce", JsonVal.jstr ""), ("data", JsonVal.jstr "zzz")]))) = false :=
  ⟨rfl, rfl⟩

/-- C6 (amended): along every operation sequence from a fresh boot over an
arbitrary mirror file, the slot is always either absent or exactly one
pair within the size bounds (nonce ≤ 4096, data ≤ 16384); whenever the
initial mirror file either fails to load or loads to a non-empty pair —
as does every mirror the server itself writes — both fields are moreover
always non-empty.  (The restore path does not re-check non-emptiness, so a
corrupted mirror with an empty string field installs an empty field.) -/
theorem slot_invariant_sequences (env : Option String) (t : Nat)
    (file : Option JsonVal) (ops : List Op) :
    slotBounded (runOps env (initSys t file) ops).mem = true ∧
    (mirrorStrong file = true →
       slotStrong (runOps env (initSys t file) ops).mem = true) := by
  constructor
  · exact runOps_bounded env ops _ (initSys_bounded t file)
  · intro h
    have hs := runOps_strong env ops _ (initSys_strong t file h)
    rw [sysStrong, Bool.and_eq_true] at hs
    exact hs.1

theorem slot_invariant_sequences_witness :
    slotStrong (runOps none (initSys 0 none)
      [Op.deposit (some "CHANGE_ME") ⟨"n", "d"⟩ 1 true, Op.restart 2,
       Op.clear (some "CHANGE_ME") true]).mem = true :=
  (slot_invariant_sequences none 0 none
    [Op.deposit (some "CHANGE_ME") ⟨"n", "d"⟩ 1 true, Op.restart 2,
     Op.clear (some "CHANGE_ME") true]).2 (by decide)

/-- C7 counterexample: a successful Fetch carries the raw pair and no
numeric code at all, and a successful Deposit carries its code under the
key "c" while a denied one uses the key "detail" — so not every outcome
is a numeric code carried in a body of the same structure. -/
theorem response_shape_not_uniform :
    (get_payload (update_tunnel none 7 true ⟨⟨none, none⟩, none⟩ (some "CHANGE_ME")
        ⟨"n", "d"⟩).1).body = Body.pairBody "n" "d" ∧
    (update_tunnel none 7 true ⟨⟨none, none⟩, none⟩ (some "CHANGE_ME") ⟨"n", "d"⟩).2.body =
      Body.codeBody "c" 100 ∧
    (update_tunnel none 7 true ⟨⟨none, none⟩, none⟩ none ⟨"n", "d"⟩).2.body =
      Body.codeBody "detail" 301 ∧
    ("c" : String) ≠ "detail" := by
  refine ⟨rfl, rfl, rfl, by decide⟩

/-- C7 (amended): every Deposit or Clear outcome, and a Fetch on an absent
slot, carries one numeric code of the fixed closed set
100/200/301/404/409/503/520 in a single-numeric-field body (key "c" on
success, key "detail" on failure), while a successful Fetch instead
returns the stored pair with no numeric code. -/
theorem numeric_codes_closed_set (env : Option String) (t : Nat) (d : Bool)
    (s : Sys) (cred : Option String) (p : Payload) :
    ((update_tunnel env t d s cred p).2.body = Body.codeBody "c" C_OK ∨
     (update_tunnel env t d s cred p).2.body = Body.codeBody "detail" C_DENY ∨
     (update_tunnel env t d s cred p).2.body = Body.codeBody "detail" C_BAD) ∧
    ((end_tunnel env d s cred).2.body = Body.codeBody "c" C_OK ∨
     (end_tunnel env d s cred).2.body = Body.codeBody "detail" C_DENY) ∧
    (s.mem.payload = none → (get_payload s).body = Body.codeBody "detail" C_NR) ∧
    (∀ q, s.mem.payload = some q → (get_payload s).body = Body.pairBody q.nonce q.data) ∧
    (C_OK ∈ STATUS_CODES ∧ C_DENY ∈ STATUS_CODES ∧ C_BAD ∈ STATUS_CODES ∧
      C_NR ∈ STATUS_CODES) := by
  refine ⟨?_, ?_, ?_, ?_, by decide⟩
  · unfold update_tunnel
    cases ha : _auth cred (GATE_PASS env) with
    | true => exact Or.inr (Or.inl rfl)
    | false =>
      cases hv : validate_payload p with
      | none => exact Or.inl rfl
      | some sc =>
        have hd := validate_some_detail p sc hv
        refine Or.inr (Or.inr ?_)
        show Body.codeBody "detail" sc.2 = Body.codeBody "detail" C_BAD
        rw [hd]
  · unfold end_tunnel
    cases ha : _auth cred (GATE_PASS env) with
    | true => exact Or.inr rfl
    | false => exact Or.inl rfl
  · intro h
    unfold get_payload
    rw [h]
  · intro q h
    unfold get_payload
    rw [h]

theorem numeric_codes_closed_set_witness :
    (get_payload ⟨⟨none, none⟩, none⟩).body = Body.codeBody "detail" C_NR :=
  (numeric_codes_closed_set none 0 true ⟨⟨none, none⟩, none⟩ none ⟨"n", "d"⟩).2.2.1 rfl

/-- C8: the startup load returns the stored pair exactly on well-formed
mirrors (object, both fields present, both strings, both within bounds),
and yields `none` — the same as no mirror — on every structural problem
(missing/unparsable file, non-object content, missing field, non-string
field, oversized field); hence after a restart over an intact mirror of
the last successful Deposit, Fetch returns that same pair, and over a
corrupted (unloadable) mirror Fetch returns NOT_READY. -/
theorem mirror_load_recovery :
    best_effort_load none = none ∧
    (∀ v : JsonVal, isObj v = false → best_effort_load (some v) = none) ∧
    (∀ fields, jsonLookup fields "nonce" = none →
       best_effort_load (some (JsonVal.jobj fields)) = none) ∧
    (∀ fields, jsonLookup fields "data" = none →
       best_effort_load (some (JsonVal.jobj fields)) = none) ∧
    (∀ fields v, jsonLookup fields "nonce" = some v → isStr v = false →
       best_effort_load (some (JsonVal.jobj fields)) = none) ∧
    (∀ fields v, jsonLookup fields "data" = some v → isStr v = false →
       best_effort_load (some (JsonVal.jobj fields)) = none) ∧
    (∀ fields n d2, jsonLookup fields "nonce" = some (JsonVal.jstr n) →
       jsonLookup fields "data" = some (JsonVal.jstr d2) →
       (n.length > MAX_NONCE_LEN ∨ d2.length > MAX_DATA_LEN) →
       best_effort_load (some (JsonVal.jobj fields)) = none) ∧
    (∀ fields n d2, jsonLookup fields "nonce" = some (JsonVal.jstr n) →
       jsonLookup fields "data" = some (JsonVal.jstr d2) →
       n.length ≤ MAX_NONCE_LEN → d2.length ≤ MAX_DATA_LEN →
       best_effort_load (some (JsonVal.jobj fields)) = some ⟨n, d2⟩) ∧
    (∀ (env : Option String) (t t' : Nat) (s : Sys) (cred : Option String) (p : Payload),
       _auth cred (GATE_PASS env) = false → validate_payload p = none →
       get_payload (initSys t' (update_tunnel env t true s cred p).1.mirror) =
         ⟨200, Body.pairBody p.nonce p.data, [("Cache-Control", "no-store")]⟩) ∧
    (∀ (t' : Nat) (file : Option JsonVal), best_effort_load file = none →
       get_payload (initSys t' file) = ⟨503, Body.codeBody "detail" C_NR, []⟩) := by
  refine ⟨rfl, ?_, ?_, ?_, ?_, ?_, ?_, ?_, ?_, ?_⟩
  · intro v h
    cases v with
    | jobj fields => exact absurd h (by simp [isObj])
    | jnull => rfl
    | jbool b => rfl
    | jnum n => rfl
    | jstr s => rfl
    | jarr xs => rfl
  · intro fields h
    rw [load_jobj, h]
  · intro fields h
    rw [load_jobj, h]
    cases hn : jsonLookup fields "nonce" with
    | none => rfl
    | some w => cases w <;> rfl
  · intro fields v hn hs
    rw [load_jobj, hn]
    cases v with
    | jstr s => exact absurd hs (by simp [isStr])
    | jnull => cases hd : jsonLookup fields "data" with
      | none => rfl
      | some w => cases w <;> rfl
    | jbool b => cases hd : jsonLookup fields "data" with
      | none => rfl
      | some w => cases w <;> rfl
    | jnum n => cases hd : jsonLookup fields "data" with
      | none => rfl
      | some w => cases w <;> rfl
    | jarr xs => cases hd : jsonLookup fields "data" with
      | none => rfl
      | some w => cases w <;> rfl
    | jobj fs => cases hd : jsonLookup fields "data" with
      | none => rfl
      | some w => cases w <;> rfl
  · intro fields v hd hs
    rw [load_jobj, hd]
    cases v with
    | jstr s => exact absurd hs (by simp [isStr])
    | jnull => cases hn : jsonLookup fields "nonce" with
      | none => rfl
      | some w => cases w <;> rfl
    | jbool b => cases hn : jsonLookup fields "nonce" with
      | none => rfl
      | some w => cases w <;> rfl
    | jnum n => cases hn : jsonLookup fields "nonce" with
      | none => rfl
      | some w => cases w <;> rfl
    | jarr xs => cases hn : jsonLookup fields "nonce" with
      | none => rfl
      | some w => cases w <;> rfl
    | jobj fs => cases hn : jsonLookup fields "nonce" with
      | none => rfl
      | some w => cases w <;> rfl
  · intro fields n d2 hn hd hlen
    rw [load_jobj, hn, hd]
    show (if n.length > MAX_NONCE_LEN ∨ d2.length > MAX_DATA_LEN then none
      else some (⟨n, d2⟩ : Payload)) = none
    rw [if_pos hlen]
  · intro fields n d2 hn hd h1 h2
    rw [load_jobj, hn, hd]
    show (if n.length > MAX_NONCE_LEN ∨ d2.length > MAX_DATA_LEN then none
      else some (⟨n, d2⟩ : Payload)) = some ⟨n, d2⟩
    rw [if_neg (by omega)]
  · intro env t t' s cred p ha hv
    have hb := (validate_none_strong p hv).1
    have hl := load_encode p hb
    unfold update_tunnel
    rw [ha, hv]
    show get_payload (initSys t' (some (encodePayload p))) = _
    unfold initSys startup_restore
    rw [hl]
    rfl
  · intro t' file h
    unfold initSys startup_restore
    rw [h]
    rfl

theorem mirror_load_recovery_witness :
    best_effort_load (some (JsonVal.jnum 3)) = none ∧
    get_payload (initSys 9 none) = ⟨503, Body.codeBody "detail" C_NR, []⟩ := by
  constructor
  · exact mirror_load_recovery.2.1 (JsonVal.jnum 3) (by decide)
  · exact mirror_load_recovery.2.2.2.2.2.2.2.2.2 9 none (by decide)

end ZenX
